import Mathlib

/-!
Verification of the deep-research workflow system's error-recovery and
pipeline-orchestration semantics, shallowly embedded from
`error_recovery.py` and `deepresearch.py`.
-/

namespace DeepResearch

/-- A Python exception as the error-recovery code observes it: whether it is
an `asyncio.TimeoutError` instance, and its textual message `str(e)`. -/
structure PyError where
  isTimeoutType : Bool
  msg : String
  deriving DecidableEq, Repr

/-- Python's `needle in hay` substring test on strings. -/
def strContains (hay needle : String) : Bool :=
  decide (needle.data <:+: hay.data)

/-- Python's `s.lower()`, as the character-wise lowering of the string. -/
def pyLower (s : String) : String :=
  ⟨s.data.map Char.toLower⟩

/-- `ErrorCategory` from `error_recovery.py`. -/
inductive ErrorCategory where
  | API_ERROR
  | NETWORK_ERROR
  | TIMEOUT_ERROR
  | VALIDATION_ERROR
  | RESOURCE_ERROR
  | UNKNOWN_ERROR
  deriving DecidableEq, Repr

/-- `ErrorSeverity` from `error_recovery.py`. -/
inductive ErrorSeverity where
  | RECOVERABLE
  | DEGRADED
  | CRITICAL
  deriving DecidableEq, Repr

/-- `categorize_error` from `error_recovery.py` (lines 40-67): lower-case the
message and test the fixed sequence of substring / type checks, first match
wins. -/
def categorize_error (e : PyError) : ErrorCategory :=
  let s := pyLower e.msg
  if strContains s "timeout" || e.isTimeoutType then .TIMEOUT_ERROR
  else if strContains s "api" || strContains s "401" || strContains s "403" then .API_ERROR
  else if strContains s "network" || strContains s "connection" then .NETWORK_ERROR
  else if strContains s "validation" || strContains s "invalid" then .VALIDATION_ERROR
  else if strContains s "memory" || strContains s "disk" then .RESOURCE_ERROR
  else .UNKNOWN_ERROR

/-- `get_error_severity` from `error_recovery.py` (lines 70-97): categorize,
then map the category through the fixed if-chain. -/
def get_error_severity (e : PyError) : ErrorSeverity :=
  let category := categorize_error e
  if category = .VALIDATION_ERROR then .CRITICAL
  else if category = .RESOURCE_ERROR then .CRITICAL
  else if category = .API_ERROR ∨ category = .TIMEOUT_ERROR then .RECOVERABLE
  else if category = .NETWORK_ERROR then .RECOVERABLE
  else .DEGRADED

/-- The severity table exactly as the spec words it, keyed on category alone;
used to compare `get_error_severity` against the spec. -/
def severityOfCategory : ErrorCategory → ErrorSeverity
  | .VALIDATION_ERROR => .CRITICAL
  | .RESOURCE_ERROR => .CRITICAL
  | .API_ERROR => .RECOVERABLE
  | .TIMEOUT_ERROR => .RECOVERABLE
  | .NETWORK_ERROR => .RECOVERABLE
  | .UNKNOWN_ERROR => .DEGRADED

/-- Result of one `retry_with_backoff` invocation: the value returned or the
exception finally raised, together with how many attempts were made and how
many backoff waits (`asyncio.sleep` calls) happened. -/
structure RetryResult (α : Type) where
  outcome : Except PyError α
  attempts : Nat
  waits : Nat
  deriving Repr

/-- The `for attempt in range(max_retries + 1)` loop of `retry_with_backoff`
(`error_recovery.py` lines 127-166).  `f i` is the outcome of the wrapped
work unit on attempt `i` (0-based).  The fuel counts the remaining loop
iterations; the fuel-0 branch mirrors the dead `raise last_exception`
after the loop. -/
def retry_loop (f : Nat → Except PyError α) (maxRetries : Nat) :
    Nat → Nat → Nat → Option PyError → RetryResult α
  | 0, attempt, waits, lastExc =>
    ⟨.error (lastExc.getD ⟨false, ""⟩), attempt, waits⟩
  | fuel + 1, attempt, waits, _ =>
    match f attempt with
    | .ok v => ⟨.ok v, attempt + 1, waits⟩
    | .error e =>
      if get_error_severity e = .CRITICAL then ⟨.error e, attempt + 1, waits⟩
      else if attempt = maxRetries then ⟨.error e, attempt + 1, waits⟩
      else retry_loop f maxRetries fuel (attempt + 1) (waits + 1) (some e)

/-- `retry_with_backoff` from `error_recovery.py` (lines 100-166), with the
work unit modelled as its per-attempt outcome and the float backoff delays
abstracted to the count of waits. -/
def retry_with_backoff (f : Nat → Except PyError α) (maxRetries : Nat) :
    RetryResult α :=
  retry_loop f maxRetries (maxRetries + 1) 0 0 none

/-- Result of `with_fallback`: the returned value or raised exception, plus
how many times the primary and the fallback were invoked. -/
structure FallbackResult (β : Type) where
  outcome : Except String β
  primaryCalls : Nat
  fallbackCalls : Nat
  deriving Repr

/-- `with_fallback` from `error_recovery.py` (lines 169-215): run the primary
on the given arguments; on any failure run the fallback on the same
arguments; if both fail raise a `RuntimeError` combining both messages.
Failures are modelled by their message `str(e)`. -/
def with_fallback (primary fallback : α → Except String β) (args : α) :
    FallbackResult β :=
  match primary args with
  | .ok v => ⟨.ok v, 1, 0⟩
  | .error e =>
    match fallback args with
    | .ok v => ⟨.ok v, 1, 1⟩
    | .error fe =>
      ⟨.error ("Both primary and fallback operations failed. Primary: " ++ e
          ++ ", Fallback: " ++ fe), 1, 1⟩

/-- Python truthiness of the `fail_on_count: Optional[int]` parameter, as
tested by `if fail_on_count and ...`: `None` and `0` are falsy. -/
def failOnCountTruthy : Option Nat → Bool
  | none => false
  | some n => n != 0

/-- The `for i, item in enumerate(items)` loop of `partial_recovery`
(`error_recovery.py` lines 335-347), accumulating `successful` and
`failed` in append order and breaking when the failure threshold is
truthy and reached. -/
def partial_recovery_loop (p : α → Except String β) (failOnCount : Option Nat) :
    List α → List β → List (α × String) → List β × List (α × String)
  | [], successful, failed => (successful, failed)
  | item :: rest, successful, failed =>
    match p item with
    | .ok r => partial_recovery_loop p failOnCount rest (successful ++ [r]) failed
    | .error e =>
      let failed := failed ++ [(item, e)]
      if failOnCountTruthy failOnCount ∧ failed.length ≥ failOnCount.getD 0 then
        (successful, failed)
      else
        partial_recovery_loop p failOnCount rest successful failed

/-- `partial_recovery` from `error_recovery.py` (lines 316-354): process the
items in order with the given processor (modelled by its per-item outcome,
a result or a raised message), collecting successes and `{item, error}`
failure records. -/
def partial_recovery (items : List α) (p : α → Except String β)
    (failOnCount : Option Nat) : List β × List (α × String) :=
  partial_recovery_loop p failOnCount items [] []

/-- The results, in order, of the successfully processed items of a list; the
spec's description of the `successes` output of `partial_recovery`. -/
def successesOf (p : α → Except String β) (l : List α) : List β :=
  l.filterMap (fun a => (p a).toOption)

/-- The `{item, error}` records, in order, of the failing items of a list; the
spec's description of the `failures` output of `partial_recovery`. -/
def failuresOf (p : α → Except String β) (l : List α) : List (α × String) :=
  l.filterMap (fun a => match p a with | .ok _ => none | .error e => some (a, e))

/-- The spec's timeout condition: a timeout-typed failure or a message
containing "timeout". -/
def timeoutMatch (e : PyError) : Bool :=
  strContains (pyLower e.msg) "timeout" || e.isTimeoutType

/-- The spec's API condition: message containing "api", "401", or "403". -/
def apiMatch (e : PyError) : Bool :=
  strContains (pyLower e.msg) "api" || strContains (pyLower e.msg) "401" ||
    strContains (pyLower e.msg) "403"

/-- The spec's network condition: message containing "network" or
"connection". -/
def networkMatch (e : PyError) : Bool :=
  strContains (pyLower e.msg) "network" || strContains (pyLower e.msg) "connection"

/-- The spec's validation condition: message containing "validation" or
"invalid". -/
def validationMatch (e : PyError) : Bool :=
  strContains (pyLower e.msg) "validation" || strContains (pyLower e.msg) "invalid"

/-- The spec's resource condition: message containing "memory" or "disk". -/
def resourceMatch (e : PyError) : Bool :=
  strContains (pyLower e.msg) "memory" || strContains (pyLower e.msg) "disk"

/-- The acceptance test of `_review_and_revise` (`deepresearch.py` lines
309-313): the lower-cased feedback contains "excellent", "no major issues",
or "ready to publish". -/
def isAcceptedFeedback (feedback : String) : Bool :=
  strContains (pyLower feedback) "excellent" ||
    strContains (pyLower feedback) "no major issues" ||
    strContains (pyLower feedback) "ready to publish"

/-- Trace of one `_review_and_revise` call: the returned report or raised
exception, the number of revision-generator invocations, the number of
`_get_user_approval` escalation calls with the `(content, additional_info)`
arguments passed, every value assigned to `iteration_count["revision"]` in
order, and the final `state.review_feedback`. -/
structure ReviewLoopResult where
  outcome : Except PyError String
  revisionCalls : Nat
  escalationCalls : Nat
  escalationArgs : Option (String × String)
  iterHistory : List Nat
  lastFeedback : String
  deriving Repr

/-- The `for iteration in range(max_revisions)` loop of `_review_and_revise`
(`deepresearch.py` lines 285-352). `reviews i` / `revisions i` are the
outcomes of the review and revision generator calls of iteration `i`
(0-based); the fuel counts the remaining iterations, and the fuel-0 branch
is the post-loop escalation to the user. -/
def review_loop (reviews revisions : Nat → Except PyError String)
    (escalApproved : Bool) :
    Nat → Nat → String → String → Nat → List Nat → ReviewLoopResult
  | 0, _i, current, lastFb, revCalls, iterHist =>
    if escalApproved then
      ⟨.ok current, revCalls, 1, some (current, lastFb), iterHist, lastFb⟩
    else
      ⟨.error ⟨false, "Report rejected by user after max revisions"⟩,
        revCalls, 1, some (current, lastFb), iterHist, lastFb⟩
  | fuel + 1, i, current, lastFb, revCalls, iterHist =>
    let iterHist := iterHist ++ [i + 1]
    match reviews i with
    | .error e => ⟨.error e, revCalls, 0, none, iterHist, lastFb⟩
    | .ok feedback =>
      if isAcceptedFeedback feedback then
        ⟨.ok current, revCalls, 0, none, iterHist, feedback⟩
      else
        match revisions i with
        | .error e => ⟨.error e, revCalls + 1, 0, none, iterHist, feedback⟩
        | .ok revised =>
          review_loop reviews revisions escalApproved fuel (i + 1) revised
            feedback (revCalls + 1) iterHist

/-- `_review_and_revise` from `deepresearch.py` (lines 280-352), entered with
the draft report and the state's current (initially empty) review feedback. -/
def review_and_revise (reviews revisions : Nat → Except PyError String)
    (escalApproved : Bool) (maxRevisions : Nat) (draft initFb : String) :
    ReviewLoopResult :=
  review_loop reviews revisions escalApproved maxRevisions 0 draft initFb 0 []

/-- The collaborators and generator outcomes one `execute` run observes.
Each stage's generator is modelled by its outcome per attempt index; the
final document path stands for the file produced by
`_create_final_document`. -/
structure ExecParams where
  genPlan : Nat → Except PyError String
  planApproved : Bool
  research : Nat → Except PyError String
  writeReport : Nat → Except PyError String
  reviews : Nat → Except PyError String
  revisions : Nat → Except PyError String
  escalApproved : Bool
  factCheck : Nat → Except PyError String
  formatDoc : Nat → Except PyError String
  genSummary : Nat → Except PyError String
  finalDocPath : String
  maxIterations : Nat

/-- The dictionary `execute` returns, keyed by its `status` field. -/
structure ExecReturn where
  status : String
  reason : Option String
  outputPath : Option String
  summary : Option String
  deriving DecidableEq, Repr

/-- Observable outcome of one `execute` run: the returned dictionary or the
re-raised exception, per-stage generator invocation counts, and the
review-loop trace when that stage was reached. -/
structure ExecOutcome where
  result : Except PyError ExecReturn
  planCalls : Nat
  researchCalls : Nat
  writeCalls : Nat
  factCheckCalls : Nat
  formatCalls : Nat
  summaryCalls : Nat
  loopTrace : Option ReviewLoopResult
  deriving Repr

/-- `DeepResearchWorkflow.execute` from `deepresearch.py` (lines 115-214):
plan, plan approval (reject returns a cancellation dict), research, write,
review/revise loop, fact-check, format, summary, final document; every
stage invokes its generator exactly once, and any raised exception is
recorded and re-raised. -/
def execute (p : ExecParams) : ExecOutcome :=
  match p.genPlan 0 with
  | .error e => ⟨.error e, 1, 0, 0, 0, 0, 0, none⟩
  | .ok _plan =>
    if p.planApproved then
      match p.research 0 with
      | .error e => ⟨.error e, 1, 1, 0, 0, 0, 0, none⟩
      | .ok _notes =>
        match p.writeReport 0 with
        | .error e => ⟨.error e, 1, 1, 1, 0, 0, 0, none⟩
        | .ok draft =>
          let lr := review_and_revise p.reviews p.revisions p.escalApproved
            p.maxIterations draft ""
          match lr.outcome with
          | .error e => ⟨.error e, 1, 1, 1, 0, 0, 0, some lr⟩
          | .ok _revised =>
            match p.factCheck 0 with
            | .error e => ⟨.error e, 1, 1, 1, 1, 0, 0, some lr⟩
            | .ok _fc =>
              match p.formatDoc 0 with
              | .error e => ⟨.error e, 1, 1, 1, 1, 1, 0, some lr⟩
              | .ok _formatted =>
                match p.genSummary 0 with
                | .error e => ⟨.error e, 1, 1, 1, 1, 1, 1, some lr⟩
                | .ok summ =>
                  ⟨.ok ⟨"success", none, some p.finalDocPath, some summ⟩,
                    1, 1, 1, 1, 1, 1, some lr⟩
    else
      ⟨.ok ⟨"cancelled", some "Plan rejected by user", none, none⟩,
        1, 0, 0, 0, 0, 0, none⟩

/-- The `iteration_count` dictionary of a `WorkflowState`. -/
structure IterationCount where
  research : Nat
  revision : Nat
  deriving DecidableEq, Repr

/-- `WorkflowState` from `deepresearch.py` (lines 33-51); `created_at` is
held as its ISO-8601 text, which is all `to_dict` observes of it, and
`metadata` as an association list. -/
structure WorkflowState where
  workflow_id : String
  created_at : String
  user_prompt : String
  research_plan : String
  plan_approved : Bool
  research_notes : String
  draft_report : String
  review_feedback : String
  revised_report : String
  formatted_report : String
  summary : String
  final_document_path : String
  iteration_count : IterationCount
  errors : List String
  metadata : List (String × String)
  deriving DecidableEq, Repr

/-- The dictionary produced by `WorkflowState.to_dict`, one entry per state
field. -/
structure StateDict where
  workflow_id : String
  created_at : String
  user_prompt : String
  research_plan : String
  plan_approved : Bool
  research_notes : String
  draft_report : String
  review_feedback : String
  revised_report : String
  formatted_report : String
  summary : String
  final_document_path : String
  iteration_count : IterationCount
  errors : List String
  metadata : List (String × String)
  deriving DecidableEq, Repr

/-- `WorkflowState.to_dict` from `deepresearch.py` (lines 53-71): serialize
every field of the state into the dictionary. -/
def WorkflowState.to_dict (s : WorkflowState) : StateDict :=
  ⟨s.workflow_id, s.created_at, s.user_prompt, s.research_plan,
    s.plan_approved, s.research_notes, s.draft_report, s.review_feedback,
    s.revised_report, s.formatted_report, s.summary, s.final_document_path,
    s.iteration_count, s.errors, s.metadata⟩

/-- Modelled from the spec: the repository has no deserializer for a saved
state (only `to_dict` and `save` exist under `deepresearch.py`); the spec's
round-trip sentence requires one that reads each serialized field back into
a state. -/
def StateDict.from_dict (d : StateDict) : WorkflowState :=
  ⟨d.workflow_id, d.created_at, d.user_prompt, d.research_plan,
    d.plan_approved, d.research_notes, d.draft_report, d.review_feedback,
    d.revised_report, d.formatted_report, d.summary, d.final_document_path,
    d.iteration_count, d.errors, d.metadata⟩

/-- A work unit that fails with a recoverable connection error on its first
two attempts and then succeeds; used to instantiate the retry theorems. -/
def retryFlaky : Nat → Except PyError String :=
  fun i => if i < 2 then .error ⟨false, "connection reset"⟩ else .ok "done"

/-- A review generator whose feedback never contains an acceptance phrase. -/
def cReviews : Nat → Except PyError String :=
  fun _ => .ok "needs more work"

/-- A revision generator that always succeeds. -/
def cRevisions : Nat → Except PyError String :=
  fun _ => .ok "revised draft"

/-- A review generator that rejects on iteration 0 and accepts (with an
upper-case acceptance phrase) from iteration 1 on. -/
def acceptReviews : Nat → Except PyError String :=
  fun j => if j = 0 then .ok "needs more work" else .ok "Excellent work"

/-- A run in which every stage succeeds and the first review accepts. -/
def okParams : ExecParams where
  genPlan := fun _ => .ok "plan"
  planApproved := true
  research := fun _ => .ok "notes"
  writeReport := fun _ => .ok "draft"
  reviews := fun _ => .ok "This report is excellent and ready to publish"
  revisions := fun _ => .ok "rev"
  escalApproved := true
  factCheck := fun _ => .ok "facts ok"
  formatDoc := fun _ => .ok "formatted"
  genSummary := fun _ => .ok "summary"
  finalDocPath := "output/report.html"
  maxIterations := 3

/-- The same run with the plan rejected at the approval gate. -/
def rejectedPlanParams : ExecParams :=
  { okParams with planApproved := false }

/-- The same run, except the planning generator fails recoverably on its
first attempt and would succeed on its second. -/
def retryProbeParams : ExecParams :=
  { okParams with
    genPlan := fun i => if i = 0 then .error ⟨false, "timeout occurred"⟩
      else .ok "plan" }

/-- The same run with never-accepting reviews and a rejecting escalation. -/
def rejectLoopParams : ExecParams :=
  { okParams with
    reviews := cReviews
    revisions := cRevisions
    escalApproved := false }

/-- The all-success run, except the research generator fails recoverably. -/
def failResearchParams : ExecParams :=
  { okParams with research := fun _ => .error ⟨false, "timeout occurred"⟩ }

/-- The all-success run, except the writing generator fails recoverably. -/
def failWriteParams : ExecParams :=
  { okParams with writeReport := fun _ => .error ⟨false, "timeout occurred"⟩ }

/-- The all-success run, except the review generator rejects on iteration 0
and fails recoverably on iteration 1. -/
def failReviewParams : ExecParams :=
  { okParams with
    reviews := fun j => if j = 0 then .ok "needs more work"
      else .error ⟨false, "timeout occurred"⟩
    revisions := cRevisions }

/-- The all-success run, except reviews never accept and the revision
generator fails recoverably. -/
def failRevisionParams : ExecParams :=
  { okParams with
    reviews := cReviews
    revisions := fun _ => .error ⟨false, "timeout occurred"⟩ }

/-- The all-success run, except the fact-check generator fails recoverably. -/
def failFactCheckParams : ExecParams :=
  { okParams with factCheck := fun _ => .error ⟨false, "timeout occurred"⟩ }

/-- The all-success run, except the formatting generator fails recoverably. -/
def failFormatParams : ExecParams :=
  { okParams with formatDoc := fun _ => .error ⟨false, "timeout occurred"⟩ }

/-- The all-success run, except the summary generator fails recoverably. -/
def failSummaryParams : ExecParams :=
  { okParams with genSummary := fun _ => .error ⟨false, "timeout occurred"⟩ }

/-- A workflow state with non-empty artifacts, errors, and approval data;
used to instantiate the serialization round-trip. -/
def sampleState : WorkflowState :=
  ⟨"20250101_120000", "2025-01-01T12:00:00", "quantum computing",
    "1. survey the field", true, "notes", "draft", "looks good",
    "revised", "formatted", "summary", "output/report.html",
    ⟨0, 2⟩, ["API error during research", "timeout during formatting"],
    [("model", "claude")]⟩

/-- A work unit that always fails with a critical validation error; used to
instantiate the retry theorems. -/
def retryCritical : Nat → Except PyError Nat :=
  fun _ => .error ⟨false, "invalid data"⟩

end DeepResearch

namespace DeepResearch

lemma get_error_severity_eq_table (e : PyError) :
    get_error_severity e = severityOfCategory (categorize_error e) := by
  cases h : categorize_error e <;> simp [get_error_severity, severityOfCategory, h]

/-- C2: `categorize_error` is total and returns the first matching category of
the fixed check order (timeout, then api/401/403, then network/connection,
then validation/invalid, then memory/disk, else unknown) on the lower-cased
message, and `get_error_severity` is derived from that category alone by the
table VALIDATION, RESOURCE ↦ CRITICAL; API, TIMEOUT, NETWORK ↦ RECOVERABLE;
UNKNOWN ↦ DEGRADED. -/
theorem categorize_error_first_match_and_severity_table (e : PyError) :
    (categorize_error e = .TIMEOUT_ERROR ↔ timeoutMatch e = true) ∧
    (categorize_error e = .API_ERROR ↔
      timeoutMatch e = false ∧ apiMatch e = true) ∧
    (categorize_error e = .NETWORK_ERROR ↔
      timeoutMatch e = false ∧ apiMatch e = false ∧ networkMatch e = true) ∧
    (categorize_error e = .VALIDATION_ERROR ↔
      timeoutMatch e = false ∧ apiMatch e = false ∧ networkMatch e = false ∧
        validationMatch e = true) ∧
    (categorize_error e = .RESOURCE_ERROR ↔
      timeoutMatch e = false ∧ apiMatch e = false ∧ networkMatch e = false ∧
        validationMatch e = false ∧ resourceMatch e = true) ∧
    (categorize_error e = .UNKNOWN_ERROR ↔
      timeoutMatch e = false ∧ apiMatch e = false ∧ networkMatch e = false ∧
        validationMatch e = false ∧ resourceMatch e = false) ∧
    get_error_severity e = severityOfCategory (categorize_error e) := by
  refine ⟨?_, ?_, ?_, ?_, ?_, ?_, get_error_severity_eq_table e⟩ <;>
    · simp only [categorize_error, timeoutMatch, apiMatch, networkMatch,
        validationMatch, resourceMatch]
      split_ifs with h1 h2 h3 h4 h5 <;> simp_all <;> intros <;> simp_all

lemma retry_loop_ok_after_noncritical_failures (f : Nat → Except PyError α)
    (n : Nat) (v : α) :
    ∀ fuel a w last, fuel + a = n + 1 → a ≤ n →
      (∀ i, a ≤ i → i < n → ∃ e, f i = .error e ∧
        get_error_severity e ≠ .CRITICAL) →
      f n = .ok v →
      retry_loop f n fuel a w last = ⟨.ok v, n + 1, w + (n - a)⟩ := by
  intro fuel
  induction fuel with
  | zero =>
    intro a w last hfa ha _ _
    omega
  | succ fuel ih =>
    intro a w last hfa ha hfail hok
    rcases Nat.lt_or_ge a n with hlt | hge
    · obtain ⟨e, hfe, hsev⟩ := hfail a le_rfl hlt
      have hne : a ≠ n := Nat.ne_of_lt hlt
      rw [show retry_loop f n (fuel + 1) a w last =
            retry_loop f n fuel (a + 1) (w + 1) (some e) by
          simp [retry_loop, hfe, hsev, hne]]
      rw [ih (a + 1) (w + 1) (some e) (by omega) (by omega)
          (fun i hi hin => hfail i (by omega) hin) hok]
      have : w + 1 + (n - (a + 1)) = w + (n - a) := by omega
      rw [this]
    · have ha : a = n := by omega
      subst ha
      simp [retry_loop, hok]

/-- C3: with `max_retries = n`, a work unit failing non-critically on its
first `n` attempts and succeeding on attempt `n+1` returns that success after
exactly `n+1` attempts; a first failure classified CRITICAL is re-raised
after exactly one attempt with no waiting; and `max_retries = 0` means
exactly one attempt with no waiting. -/
theorem retry_with_backoff_attempt_semantics (f : Nat → Except PyError α)
    (n : Nat) (v : α) (e : PyError) :
    ((∀ i, i < n → ∃ ei, f i = .error ei ∧
        (get_error_severity ei = .RECOVERABLE ∨ get_error_severity ei = .DEGRADED)) →
      f n = .ok v →
      (retry_with_backoff f n).outcome = .ok v ∧
        (retry_with_backoff f n).attempts = n + 1) ∧
    (f 0 = .error e → get_error_severity e = .CRITICAL →
      retry_with_backoff f n = ⟨.error e, 1, 0⟩) ∧
    ((retry_with_backoff f 0).attempts = 1 ∧ (retry_with_backoff f 0).waits = 0) := by
  refine ⟨?_, ?_, ?_⟩
  · intro hfail hok
    have h := retry_loop_ok_after_noncritical_failures f n v (n + 1) 0 0 none
      (by omega) (by omega)
      (fun i _ hin => by
        obtain ⟨ei, hei, hsev⟩ := hfail i hin
        exact ⟨ei, hei, by rcases hsev with h | h <;> simp [h]⟩)
      hok
    unfold retry_with_backoff
    rw [h]
    exact ⟨rfl, rfl⟩
  · intro hf0 hcrit
    simp [retry_with_backoff, retry_loop, hf0, hcrit]
  · unfold retry_with_backoff
    rcases h : f 0 with e0 | v0 <;> simp [retry_loop, h]

/-- Witness for C3 at concrete inputs: a work unit that fails recoverably
twice then succeeds returns the success after three attempts with
`max_retries = 2`; an always-critical work unit makes one attempt. -/
theorem retry_with_backoff_attempt_semantics_witness :
    ((retry_with_backoff retryFlaky 2).outcome = .ok "done" ∧
      (retry_with_backoff retryFlaky 2).attempts = 3) ∧
    retry_with_backoff retryCritical 5 = ⟨.error ⟨false, "invalid data"⟩, 1, 0⟩ ∧
    ((retry_with_backoff retryCritical 0).attempts = 1 ∧
      (retry_with_backoff retryCritical 0).waits = 0) := by
  refine ⟨?_, ?_, ?_⟩
  · exact (retry_with_backoff_attempt_semantics retryFlaky 2 "done" ⟨false, ""⟩).1
      (fun i hi => ⟨⟨false, "connection reset"⟩, by
        interval_cases i <;> exact ⟨rfl, Or.inl (by decide)⟩⟩) rfl
  · exact (retry_with_backoff_attempt_semantics retryCritical 5 0
      ⟨false, "invalid data"⟩).2.1 rfl (by decide)
  · exact (retry_with_backoff_attempt_semantics retryCritical 0 0 ⟨false, ""⟩).2.2

lemma strContains_of_eq_append (hay pre mid post : String)
    (h : hay = pre ++ mid ++ post) : strContains hay mid = true := by
  subst h
  simp only [strContains, decide_eq_true_eq]
  exact ⟨pre.data, post.data, by simp [String.data_append]⟩

/-- C7: `with_fallback` returns the primary's result without invoking the
fallback when the primary succeeds; returns the fallback's result when the
primary fails and the fallback (on the same arguments) succeeds; and when
both fail raises one combined failure whose message contains both underlying
messages. -/
theorem with_fallback_semantics (primary fallback : α → Except String β)
    (args : α) :
    (∀ v, primary args = .ok v →
      with_fallback primary fallback args = ⟨.ok v, 1, 0⟩) ∧
    (∀ e v, primary args = .error e → fallback args = .ok v →
      with_fallback primary fallback args = ⟨.ok v, 1, 1⟩) ∧
    (∀ e fe, primary args = .error e → fallback args = .error fe →
      ∃ m, (with_fallback primary fallback args).outcome = .error m ∧
        strContains m e = true ∧ strContains m fe = true) := by
  refine ⟨?_, ?_, ?_⟩
  · intro v hp
    simp [with_fallback, hp]
  · intro e v hp hf
    simp [with_fallback, hp, hf]
  · intro e fe hp hf
    refine ⟨"Both primary and fallback operations failed. Primary: " ++ e
      ++ ", Fallback: " ++ fe, by simp [with_fallback, hp, hf], ?_, ?_⟩
    · exact strContains_of_eq_append _
        "Both primary and fallback operations failed. Primary: " e
        (", Fallback: " ++ fe) (by simp [String.append_assoc])
    · exact strContains_of_eq_append _
        ("Both primary and fallback operations failed. Primary: " ++ e
          ++ ", Fallback: ") fe "" (by simp)

/-- Witness for C7 at concrete functions: a succeeding primary, a failing
primary with succeeding fallback, and both failing. -/
theorem with_fallback_semantics_witness :
    with_fallback (fun _ : Nat => (Except.ok 7 : Except String Nat))
      (fun _ => Except.ok 8) 0 = ⟨.ok 7, 1, 0⟩ ∧
    with_fallback (fun _ : Nat => (Except.error "boom" : Except String Nat))
      (fun _ => Except.ok 8) 0 = ⟨.ok 8, 1, 1⟩ ∧
    ∃ m, (with_fallback (fun _ : Nat => (Except.error "boom" : Except String Nat))
      (fun _ => Except.error "crash") 0).outcome = .error m ∧
        strContains m "boom" = true ∧ strContains m "crash" = true := by
  refine ⟨?_, ?_, ?_⟩
  · exact (with_fallback_semantics _ _ 0).1 7 rfl
  · exact (with_fallback_semantics _ _ 0).2.1 "boom" 8 rfl rfl
  · exact (with_fallback_semantics _ _ 0).2.2 "boom" "crash" rfl rfl

lemma partial_recovery_loop_spec (p : α → Except String β) (fc : Option Nat) :
    ∀ items succ fail,
      (∀ c, fc = some c → 0 < c → fail.length < c) →
      ∃ pre rest, items = pre ++ rest ∧
        partial_recovery_loop p fc items succ fail =
          (succ ++ successesOf p pre, fail ++ failuresOf p pre) ∧
        (rest = [] ∨ ∃ c, fc = some c ∧ 0 < c ∧
          (fail ++ failuresOf p pre).length = c) ∧
        (∀ c, fc = some c → 0 < c → ∀ k, k < pre.length →
          (fail ++ failuresOf p (pre.take k)).length < c) := by
  intro items
  induction items with
  | nil =>
    intro succ fail _
    exact ⟨[], [], by simp [partial_recovery_loop, successesOf, failuresOf]⟩
  | cons item rest ih =>
    intro succ fail hbound
    rcases hp : p item with e | r
    · by_cases hstop : failOnCountTruthy fc = true ∧
        (fail ++ [(item, e)]).length ≥ fc.getD 0
      · refine ⟨[item], rest, by simp, ?_, ?_, ?_⟩
        · rw [show partial_recovery_loop p fc (item :: rest) succ fail =
              (succ, fail ++ [(item, e)]) by
            simp only [partial_recovery_loop, hp]
            rw [if_pos hstop]]
          simp [successesOf, failuresOf, hp, Except.toOption]
        · right
          rcases fc with _ | c
          · simp [failOnCountTruthy] at hstop
          · have hc : c ≠ 0 := by
              simpa [failOnCountTruthy] using hstop.1
            have hlt : fail.length < c :=
              hbound c rfl (Nat.pos_of_ne_zero hc)
            have hge : fail.length + 1 ≥ c := by
              simpa using hstop.2
            refine ⟨c, rfl, Nat.pos_of_ne_zero hc, ?_⟩
            simp [failuresOf, hp]
            omega
        · intro c hfc hc k hk
          have hk0 : k = 0 := by simpa using hk
          subst hk0
          simpa [failuresOf] using hbound c hfc hc
      · have hbound2 : ∀ c, fc = some c → 0 < c →
            (fail ++ [(item, e)]).length < c := by
          intro c hfc hcpos
          subst hfc
          have htr : failOnCountTruthy (some c) = true := by
            simp [failOnCountTruthy]
            omega
          have hnotge : ¬((fail ++ [(item, e)]).length ≥ c) := by
            intro hge
            exact hstop ⟨htr, by simpa using hge⟩
          omega
        obtain ⟨pre, rest', hsplit, heq, hdisj, hpref⟩ :=
          ih (succ) (fail ++ [(item, e)]) hbound2
        refine ⟨item :: pre, rest', by simp [hsplit], ?_, ?_, ?_⟩
        · rw [show partial_recovery_loop p fc (item :: rest) succ fail =
              partial_recovery_loop p fc rest succ (fail ++ [(item, e)]) by
            simp only [partial_recovery_loop, hp]
            rw [if_neg hstop]]
          rw [heq]
          simp [successesOf, failuresOf, hp, Except.toOption]
        · rcases hdisj with h | ⟨c, hfc, hcpos, hlen⟩
          · exact Or.inl h
          · refine Or.inr ⟨c, hfc, hcpos, ?_⟩
            simp [failuresOf, hp] at hlen ⊢
            omega
        · intro c hfc hc k hk
          cases k with
          | zero => simpa [failuresOf] using hbound c hfc hc
          | succ k2 =>
            have hx := hpref c hfc hc k2 (by simpa using hk)
            simp [failuresOf, hp] at hx ⊢
            omega
    · obtain ⟨pre, rest', hsplit, heq, hdisj, hpref⟩ := ih (succ ++ [r]) fail hbound
      refine ⟨item :: pre, rest', by simp [hsplit], ?_, ?_, ?_⟩
      · rw [show partial_recovery_loop p fc (item :: rest) succ fail =
            partial_recovery_loop p fc rest (succ ++ [r]) fail by
          simp [partial_recovery_loop, hp]]
        rw [heq]
        simp [successesOf, failuresOf, hp, Except.toOption]
      · rcases hdisj with h | ⟨c, hfc, hcpos, hlen⟩
        · exact Or.inl h
        · refine Or.inr ⟨c, hfc, hcpos, ?_⟩
          simp [failuresOf, hp] at hlen ⊢
          omega
      · intro c hfc hc k hk
        cases k with
        | zero => simpa [failuresOf] using hbound c hfc hc
        | succ k2 =>
          have hx := hpref c hfc hc k2 (by simpa using hk)
          simp [failuresOf, hp] at hx ⊢
          omega

/-- C8: `partial_recovery` processes a prefix of the item list in order,
returning the successful results and the `{item, error}` failure records of
that prefix in their original relative order, never raising on a per-item
failure; the prefix is the whole list unless the failure count reaches a
truthy `fail_on_count`, in which case iteration stops with exactly that many
failures - every proper prefix of the processed items has fewer failures, so
the stop happens at the first item reaching the threshold - and the
remaining items appear in neither output. -/
theorem partial_recovery_prefix_semantics (items : List α)
    (p : α → Except String β) (fc : Option Nat) :
    ∃ pre rest, items = pre ++ rest ∧
      (partial_recovery items p fc).1 = successesOf p pre ∧
      (partial_recovery items p fc).2 = failuresOf p pre ∧
      (rest = [] ∨ ∃ c, fc = some c ∧ 0 < c ∧
        (partial_recovery items p fc).2.length = c) ∧
      (∀ c, fc = some c → 0 < c → ∀ k, k < pre.length →
        (failuresOf p (pre.take k)).length < c) := by
  obtain ⟨pre, rest, hsplit, heq, hdisj, hpref⟩ :=
    partial_recovery_loop_spec p fc items [] [] (by simp)
  refine ⟨pre, rest, hsplit, ?_, ?_, ?_, ?_⟩
  · simp [partial_recovery, heq]
  · simp [partial_recovery, heq]
  · rcases hdisj with h | ⟨c, hfc, hcpos, hlen⟩
    · exact Or.inl h
    · exact Or.inr ⟨c, hfc, hcpos, by simp [partial_recovery, heq]; simpa using hlen⟩
  · intro c hfc hc k hk
    simpa using hpref c hfc hc k hk

lemma partial_recovery_loop_not_truthy (p : α → Except String β)
    (fc : Option Nat) (hfc : failOnCountTruthy fc = false) :
    ∀ items succ fail, partial_recovery_loop p fc items succ fail =
      partial_recovery_loop p none items succ fail := by
  intro items
  induction items with
  | nil => intro succ fail; rfl
  | cons item rest ih =>
    intro succ fail
    have hnone : failOnCountTruthy none = false := rfl
    rcases hp : p item with e | r <;>
      simp [partial_recovery_loop, hp, hfc, hnone, ih]

lemma partial_recovery_loop_none_length (p : α → Except String β) :
    ∀ (items : List α) succ fail,
      (partial_recovery_loop p none items succ fail).1.length +
        (partial_recovery_loop p none items succ fail).2.length =
          items.length + succ.length + fail.length := by
  intro items
  induction items with
  | nil => intro succ fail; simp [partial_recovery_loop]
  | cons item rest ih =>
    intro succ fail
    rcases hp : p item with e | r <;>
      · simp [partial_recovery_loop, hp, failOnCountTruthy, ih]
        omega

/-- C10: a `fail_on_count` of 0 is falsy, so `partial_recovery` treats it
exactly like an unset threshold: it never stops early, behaving identically
to `fail_on_count = None`, and every item ends up recorded in `successes` or
`failures`. -/
theorem partial_recovery_zero_threshold_processes_all (items : List α)
    (p : α → Except String β) :
    partial_recovery items p (some 0) = partial_recovery items p none ∧
    (partial_recovery items p (some 0)).1.length +
      (partial_recovery items p (some 0)).2.length = items.length := by
  have hz : partial_recovery items p (some 0) = partial_recovery items p none :=
    partial_recovery_loop_not_truthy p (some 0) (by simp [failOnCountTruthy])
      items [] []
  refine ⟨hz, ?_⟩
  rw [hz]
  simpa using partial_recovery_loop_none_length p items [] []

lemma review_loop_accept (reviews revisions : Nat → Except PyError String)
    (fbs rs : Nat → String) (esc : Bool) (i : Nat)
    (hfb : ∀ j, j ≤ i → reviews j = .ok (fbs j))
    (hrej : ∀ j, j < i → isAcceptedFeedback (fbs j) = false)
    (hrev : ∀ j, j < i → revisions j = .ok (rs j))
    (hacc : isAcceptedFeedback (fbs i) = true) :
    ∀ d fuel a current lastFb revCalls iterHist, a + d = i → d < fuel →
      review_loop reviews revisions esc fuel a current lastFb revCalls iterHist =
        ⟨.ok (if d = 0 then current else rs (i - 1)), revCalls + d, 0, none,
          iterHist ++ List.range' (a + 1) (d + 1), fbs i⟩ := by
  intro d
  induction d with
  | zero =>
    intro fuel a current lastFb revCalls iterHist hai hd
    cases fuel with
    | zero => omega
    | succ f =>
      have ha : a = i := by omega
      subst ha
      simp [review_loop, hfb a le_rfl, hacc, List.range'_one]
  | succ d ih =>
    intro fuel a current lastFb revCalls iterHist hai hd
    cases fuel with
    | zero => omega
    | succ f =>
      have hfba : reviews a = .ok (fbs a) := hfb a (by omega)
      have hra : isAcceptedFeedback (fbs a) = false := hrej a (by omega)
      have hreva : revisions a = .ok (rs a) := hrev a (by omega)
      rw [show review_loop reviews revisions esc (f + 1) a current lastFb
            revCalls iterHist =
          review_loop reviews revisions esc f (a + 1) (rs a) (fbs a)
            (revCalls + 1) (iterHist ++ [a + 1]) by
        simp [review_loop, hfba, hra, hreva]]
      rw [ih f (a + 1) (rs a) (fbs a) (revCalls + 1) (iterHist ++ [a + 1])
        (by omega) (by omega)]
      simp only [ReviewLoopResult.mk.injEq, and_true, true_and]
      refine ⟨?_, by omega, ?_⟩
      · by_cases hd0 : d = 0
        · subst hd0
          have : a = i - 1 := by omega
          simp [this]
        · simp [hd0]
      · simp [List.range'_succ]

lemma review_loop_exhaust (reviews revisions : Nat → Except PyError String)
    (fbs rs : Nat → String) (esc : Bool) :
    ∀ fuel a current lastFb revCalls iterHist,
      (∀ j, a ≤ j → j < a + fuel → reviews j = .ok (fbs j) ∧
        isAcceptedFeedback (fbs j) = false ∧ revisions j = .ok (rs j)) →
      review_loop reviews revisions esc fuel a current lastFb revCalls iterHist =
        ⟨(if esc then .ok (if fuel = 0 then current else rs (a + fuel - 1))
            else .error ⟨false, "Report rejected by user after max revisions"⟩),
          revCalls + fuel, 1,
          some (if fuel = 0 then current else rs (a + fuel - 1),
            if fuel = 0 then lastFb else fbs (a + fuel - 1)),
          iterHist ++ List.range' (a + 1) fuel,
          if fuel = 0 then lastFb else fbs (a + fuel - 1)⟩ := by
  intro fuel
  induction fuel with
  | zero =>
    intro a current lastFb revCalls iterHist _
    cases esc <;> simp [review_loop]
  | succ f ih =>
    intro a current lastFb revCalls iterHist hall
    obtain ⟨hr, hn, hv⟩ := hall a le_rfl (by omega)
    rw [show review_loop reviews revisions esc (f + 1) a current lastFb
          revCalls iterHist =
        review_loop reviews revisions esc f (a + 1) (rs a) (fbs a)
          (revCalls + 1) (iterHist ++ [a + 1]) by
      simp [review_loop, hr, hn, hv]]
    rw [ih (a + 1) (rs a) (fbs a) (revCalls + 1) (iterHist ++ [a + 1])
      (fun j hj1 hj2 => hall j (by omega) (by omega))]
    have e1 : a + 1 + f - 1 = a + f := by omega
    have e2 : a + (f + 1) - 1 = a + f := by omega
    rw [e1, e2]
    simp only [ReviewLoopResult.mk.injEq, and_true, true_and]
    refine ⟨?_, by omega, ?_, ?_, ?_⟩
    · by_cases hf : f = 0
      · subst hf
        simp
      · simp [hf]
    · by_cases hf : f = 0
      · subst hf
        simp
      · simp [hf]
    · simp [List.range'_succ]
    · by_cases hf : f = 0
      · subst hf
        simp
      · simp [hf]

lemma review_loop_history_bound (reviews revisions : Nat → Except PyError String)
    (esc : Bool) :
    ∀ fuel a current lastFb revCalls iterHist v,
      v ∈ (review_loop reviews revisions esc fuel a current lastFb revCalls
        iterHist).iterHistory →
      v ∈ iterHist ∨ v ≤ a + fuel := by
  intro fuel
  induction fuel with
  | zero =>
    intro a current lastFb revCalls iterHist v hv
    cases esc <;> simp [review_loop] at hv <;> exact Or.inl hv
  | succ f ih =>
    intro a current lastFb revCalls iterHist v hv
    simp only [review_loop] at hv
    rcases hr : reviews a with e | fb
    · simp [hr] at hv
      rcases hv with hv | hv
      · exact Or.inl hv
      · right; omega
    · by_cases hacc : isAcceptedFeedback fb = true
      · simp [hr, hacc] at hv
        rcases hv with hv | hv
        · exact Or.inl hv
        · right; omega
      · rcases hrev : revisions a with e2 | revised
        · simp [hr, hacc, hrev] at hv
          rcases hv with hv | hv
          · exact Or.inl hv
          · right; omega
        · simp [hr, hacc, hrev] at hv
          rcases ih (a + 1) revised fb (revCalls + 1) (iterHist ++ [a + 1]) v hv
            with h | h
          · simp at h
            rcases h with h | h
            · exact Or.inl h
            · right; omega
          · right; omega

/-- C4: in the review/revise loop, an iteration whose review feedback
contains one of the acceptance phrases (case-insensitively) terminates the
loop successfully at that iteration with the current report unchanged; no
revision is generated in that iteration and no escalation happens,
regardless of the configured maximum. -/
theorem review_accept_terminates (reviews revisions : Nat → Except PyError String)
    (fbs rs : Nat → String) (esc : Bool) (maxRev i : Nat) (draft : String)
    (hi : i < maxRev)
    (hfb : ∀ j, j ≤ i → reviews j = .ok (fbs j))
    (hrej : ∀ j, j < i → isAcceptedFeedback (fbs j) = false)
    (hrev : ∀ j, j < i → revisions j = .ok (rs j))
    (hacc : isAcceptedFeedback (fbs i) = true) :
    (review_and_revise reviews revisions esc maxRev draft "").outcome =
        .ok (if i = 0 then draft else rs (i - 1)) ∧
    (review_and_revise reviews revisions esc maxRev draft "").revisionCalls = i ∧
    (review_and_revise reviews revisions esc maxRev draft "").escalationCalls = 0 ∧
    (review_and_revise reviews revisions esc maxRev draft "").lastFeedback = fbs i := by
  have h := review_loop_accept reviews revisions fbs rs esc i hfb hrej hrev hacc
    i maxRev 0 draft "" 0 [] (by omega) hi
  unfold review_and_revise
  rw [h]
  refine ⟨rfl, by simp, rfl, rfl⟩

/-- Witness for C4: with reviews that reject on iteration 0 and return
"Excellent work" on iteration 1, the loop ends at iteration 1 with the
revision produced by iteration 0, one revision call, and no escalation. -/
theorem review_accept_terminates_witness :
    (review_and_revise acceptReviews cRevisions true 3 "draft v1" "").outcome =
        .ok "revised draft" ∧
    (review_and_revise acceptReviews cRevisions true 3 "draft v1" "").revisionCalls = 1 ∧
    (review_and_revise acceptReviews cRevisions true 3 "draft v1" "").escalationCalls = 0 ∧
    (review_and_revise acceptReviews cRevisions true 3 "draft v1" "").lastFeedback =
        "Excellent work" := by
  have h := review_accept_terminates acceptReviews cRevisions
    (fun j => if j = 0 then "needs more work" else "Excellent work")
    (fun _ => "revised draft") true 3 1 "draft v1" (by omega)
    (fun j hj => by interval_cases j <;> rfl)
    (fun j hj => by interval_cases j <;> decide)
    (fun j hj => by interval_cases j <;> rfl)
    (by decide)
  simpa using h

/-- C5: `iteration_count["revision"]` never exceeds the configured maximum
throughout the loop; when every iteration's feedback lacks the acceptance
phrases, the loop makes exactly one escalation call carrying the current
report and the last feedback, ends successfully with that report on
approval, and raises the dedicated "rejected after max revisions" failure
on rejection; and a review-loop failure propagates as the run's terminal
failure in `execute`. -/
theorem review_loop_bound_and_escalation
    (reviews revisions : Nat → Except PyError String) (fbs rs : Nat → String)
    (esc : Bool) (maxRev : Nat) (draft : String) (p : ExecParams) (e : PyError) :
    (∀ v ∈ (review_and_revise reviews revisions esc maxRev draft "").iterHistory,
      v ≤ maxRev) ∧
    ((∀ j, j < maxRev → reviews j = .ok (fbs j) ∧
        isAcceptedFeedback (fbs j) = false ∧ revisions j = .ok (rs j)) →
      review_and_revise reviews revisions esc maxRev draft "" =
        ⟨(if esc then .ok (if maxRev = 0 then draft else rs (maxRev - 1))
            else .error ⟨false, "Report rejected by user after max revisions"⟩),
          maxRev, 1,
          some (if maxRev = 0 then draft else rs (maxRev - 1),
            if maxRev = 0 then "" else fbs (maxRev - 1)),
          List.range' 1 maxRev,
          if maxRev = 0 then "" else fbs (maxRev - 1)⟩) ∧
    (∀ plan notes draft', p.genPlan 0 = .ok plan → p.planApproved = true →
      p.research 0 = .ok notes → p.writeReport 0 = .ok draft' →
      (review_and_revise p.reviews p.revisions p.escalApproved p.maxIterations
        draft' "").outcome = .error e →
      (execute p).result = .error e) := by
  refine ⟨?_, ?_, ?_⟩
  · intro v hv
    rcases review_loop_history_bound reviews revisions esc maxRev 0 draft "" 0 []
      v hv with h | h
    · simp at h
    · omega
  · intro hall
    have h := review_loop_exhaust reviews revisions fbs rs esc maxRev 0 draft ""
      0 [] (fun j hj1 hj2 => hall j (by omega))
    unfold review_and_revise
    rw [h]
    simp
  · intro plan notes draft' h1 hap h2 h3 h4
    simp [execute, h1, hap, h2, h3, h4]

/-- Witness for C5: three never-accepted iterations with `max_iterations = 3`
keep the revision counter at 1, 2, 3 (never above 3), make exactly one
escalation call with the iteration-3 report and feedback, and the rejected
escalation's failure becomes the run's terminal failure. -/
theorem review_loop_bound_and_escalation_witness :
    3 ≤ 3 ∧
    review_and_revise cReviews cRevisions false 3 "draft v1" "" =
      ⟨.error ⟨false, "Report rejected by user after max revisions"⟩, 3, 1,
        some ("revised draft", "needs more work"), [1, 2, 3], "needs more work"⟩ ∧
    (execute rejectLoopParams).result =
      .error ⟨false, "Report rejected by user after max revisions"⟩ := by
  have h := review_loop_bound_and_escalation cReviews cRevisions
    (fun _ => "needs more work") (fun _ => "revised draft") false 3 "draft v1"
    rejectLoopParams ⟨false, "Report rejected by user after max revisions"⟩
  refine ⟨h.1 3 (by decide), ?_, ?_⟩
  · have h2 := h.2.1 (fun j hj => ⟨rfl, by decide, rfl⟩)
    simpa using h2
  · exact h.2.2 "plan" "notes" "draft" rfl rfl rfl rfl rfl

/-- C6 counterexample: a run in which all stages succeed reaches
finalization, yet the returned status is "success", not one of
"completed", "cancelled", "failed". -/
theorem execute_status_counterexample :
    ∃ r, (execute okParams).result = .ok r ∧ r.status = "success" ∧
      ¬(r.status = "completed" ∨ r.status = "cancelled" ∨ r.status = "failed") := by
  refine ⟨⟨"success", none, some "output/report.html", some "summary"⟩, ?_, rfl,
    by decide⟩
  rfl

/-- C6 (amended): every dictionary `execute` returns has status "success" or
"cancelled" (failures are raised, not returned); a run reaching finalization
returns status "success"; and a plan rejected at the approval gate returns
status "cancelled" without raising and without invoking the research
stage. -/
theorem execute_status_semantics (p : ExecParams) :
    (∀ r, (execute p).result = .ok r →
      r.status = "success" ∨ r.status = "cancelled") ∧
    (∀ plan, p.genPlan 0 = .ok plan → p.planApproved = false →
      (execute p).result =
          .ok ⟨"cancelled", some "Plan rejected by user", none, none⟩ ∧
        (execute p).researchCalls = 0) ∧
    (∀ plan notes draft revised fc fm summ,
      p.genPlan 0 = .ok plan → p.planApproved = true →
      p.research 0 = .ok notes → p.writeReport 0 = .ok draft →
      (review_and_revise p.reviews p.revisions p.escalApproved p.maxIterations
        draft "").outcome = .ok revised →
      p.factCheck 0 = .ok fc → p.formatDoc 0 = .ok fm → p.genSummary 0 = .ok summ →
      (execute p).result =
        .ok ⟨"success", none, some p.finalDocPath, some summ⟩) := by
  refine ⟨?_, ?_, ?_⟩
  · intro r hr
    unfold execute at hr
    rcases h1 : p.genPlan 0 with e1 | plan
    · simp [h1] at hr
    · rcases hap : p.planApproved
      · simp [h1, hap] at hr
        subst hr
        simp
      · rcases h2 : p.research 0 with e2 | notes
        · simp [h1, hap, h2] at hr
        · rcases h3 : p.writeReport 0 with e3 | dr
          · simp [h1, hap, h2, h3] at hr
          · rcases h4 : (review_and_revise p.reviews p.revisions p.escalApproved
                p.maxIterations dr "").outcome with e4 | rev
            · simp [h1, hap, h2, h3, h4] at hr
            · rcases h5 : p.factCheck 0 with e5 | fc
              · simp [h1, hap, h2, h3, h4, h5] at hr
              · rcases h6 : p.formatDoc 0 with e6 | fm
                · simp [h1, hap, h2, h3, h4, h5, h6] at hr
                · rcases h7 : p.genSummary 0 with e7 | sm
                  · simp [h1, hap, h2, h3, h4, h5, h6, h7] at hr
                  · simp [h1, hap, h2, h3, h4, h5, h6, h7] at hr
                    subst hr
                    simp
  · intro plan h1 hap
    constructor <;> simp [execute, h1, hap]
  · intro plan notes draft revised fc fm summ h1 hap h2 h3 h4 h5 h6 h7
    simp [execute, h1, hap, h2, h3, h4, h5, h6, h7]

/-- Witness for C6 at concrete runs: the all-success run returns the
"success" dictionary, and the rejected-plan run returns the "cancelled"
dictionary without invoking research. -/
theorem execute_status_semantics_witness :
    (execute okParams).result =
        .ok ⟨"success", none, some "output/report.html", some "summary"⟩ ∧
    ((execute rejectedPlanParams).result =
        .ok ⟨"cancelled", some "Plan rejected by user", none, none⟩ ∧
      (execute rejectedPlanParams).researchCalls = 0) ∧
    ("success" = "success" ∨ "success" = "cancelled") := by
  refine ⟨?_, ?_, ?_⟩
  · exact (execute_status_semantics okParams).2.2 "plan" "notes" "draft" "draft"
      "facts ok" "formatted" "summary" rfl rfl rfl rfl rfl rfl rfl rfl
  · exact (execute_status_semantics rejectedPlanParams).2.1 "plan" rfl rfl
  · exact (execute_status_semantics okParams).1
      ⟨"success", none, some "output/report.html", some "summary"⟩ (by rfl)

lemma review_loop_review_error (reviews revisions : Nat → Except PyError String)
    (fbs rs : Nat → String) (esc : Bool) (i : Nat) (e : PyError)
    (hfb : ∀ j, j < i → reviews j = .ok (fbs j))
    (hrej : ∀ j, j < i → isAcceptedFeedback (fbs j) = false)
    (hrev : ∀ j, j < i → revisions j = .ok (rs j))
    (herr : reviews i = .error e) :
    ∀ d fuel a current lastFb revCalls iterHist, a + d = i → d < fuel →
      review_loop reviews revisions esc fuel a current lastFb revCalls iterHist =
        ⟨.error e, revCalls + d, 0, none,
          iterHist ++ List.range' (a + 1) (d + 1),
          if d = 0 then lastFb else fbs (i - 1)⟩ := by
  intro d
  induction d with
  | zero =>
    intro fuel a current lastFb revCalls iterHist hai hd
    cases fuel with
    | zero => omega
    | succ f =>
      have ha : a = i := by omega
      subst ha
      simp [review_loop, herr, List.range'_one]
  | succ d ih =>
    intro fuel a current lastFb revCalls iterHist hai hd
    cases fuel with
    | zero => omega
    | succ f =>
      have hfba : reviews a = .ok (fbs a) := hfb a (by omega)
      have hra : isAcceptedFeedback (fbs a) = false := hrej a (by omega)
      have hreva : revisions a = .ok (rs a) := hrev a (by omega)
      rw [show review_loop reviews revisions esc (f + 1) a current lastFb
            revCalls iterHist =
          review_loop reviews revisions esc f (a + 1) (rs a) (fbs a)
            (revCalls + 1) (iterHist ++ [a + 1]) by
        simp [review_loop, hfba, hra, hreva]]
      rw [ih f (a + 1) (rs a) (fbs a) (revCalls + 1) (iterHist ++ [a + 1])
        (by omega) (by omega)]
      simp only [ReviewLoopResult.mk.injEq, and_true, true_and]
      refine ⟨by omega, ?_, ?_⟩
      · simp [List.range'_succ]
      · by_cases hd0 : d = 0
        · subst hd0
          have : a = i - 1 := by omega
          simp [this]
        · simp [hd0]

lemma review_loop_revision_error (reviews revisions : Nat → Except PyError String)
    (fbs rs : Nat → String) (esc : Bool) (i : Nat) (e : PyError)
    (hfb : ∀ j, j < i → reviews j = .ok (fbs j))
    (hrej : ∀ j, j < i → isAcceptedFeedback (fbs j) = false)
    (hrev : ∀ j, j < i → revisions j = .ok (rs j))
    (hfbi : reviews i = .ok (fbs i))
    (hnacc : isAcceptedFeedback (fbs i) = false)
    (herr : revisions i = .error e) :
    ∀ d fuel a current lastFb revCalls iterHist, a + d = i → d < fuel →
      review_loop reviews revisions esc fuel a current lastFb revCalls iterHist =
        ⟨.error e, revCalls + d + 1, 0, none,
          iterHist ++ List.range' (a + 1) (d + 1), fbs i⟩ := by
  intro d
  induction d with
  | zero =>
    intro fuel a current lastFb revCalls iterHist hai hd
    cases fuel with
    | zero => omega
    | succ f =>
      have ha : a = i := by omega
      subst ha
      simp [review_loop, hfbi, hnacc, herr, List.range'_one]
  | succ d ih =>
    intro fuel a current lastFb revCalls iterHist hai hd
    cases fuel with
    | zero => omega
    | succ f =>
      have hfba : reviews a = .ok (fbs a) := hfb a (by omega)
      have hra : isAcceptedFeedback (fbs a) = false := hrej a (by omega)
      have hreva : revisions a = .ok (rs a) := hrev a (by omega)
      rw [show review_loop reviews revisions esc (f + 1) a current lastFb
            revCalls iterHist =
          review_loop reviews revisions esc f (a + 1) (rs a) (fbs a)
            (revCalls + 1) (iterHist ++ [a + 1]) by
        simp [review_loop, hfba, hra, hreva]]
      rw [ih f (a + 1) (rs a) (fbs a) (revCalls + 1) (iterHist ++ [a + 1])
        (by omega) (by omega)]
      simp only [ReviewLoopResult.mk.injEq, and_true, true_and]
      refine ⟨by omega, ?_⟩
      simp [List.range'_succ]

/-- C1 counterexample: the planning generator fails once with a failure
classified RECOVERABLE and would succeed on its second attempt, yet the run
invokes it exactly once and terminally fails - no stage is wrapped by the
retry executor. -/
theorem stage_retry_counterexample :
    get_error_severity ⟨false, "timeout occurred"⟩ = .RECOVERABLE ∧
    retryProbeParams.genPlan 1 = .ok "plan" ∧
    (execute retryProbeParams).result = .error ⟨false, "timeout occurred"⟩ ∧
    (execute retryProbeParams).planCalls = 1 :=
  ⟨by decide, rfl, rfl, rfl⟩

/-- C1 (amended): no pipeline stage's generator invocation is wrapped by the
retry executor. Each of the eight stages - planning, research, writing,
review, revision, fact-check, formatting, summarizing - invokes its
generator exactly once per occasion, and any failure, whatever its severity
classification, propagates immediately as the run's terminal failure: a
failing review ends the loop without invoking that iteration's revision
generator and without escalation, and a failing revision ends it after that
single revision call. -/
theorem stage_failures_propagate_without_retry (p : ExecParams) (e : PyError)
    (fbs rs : Nat → String) (i : Nat) :
    (p.genPlan 0 = .error e →
      (execute p).result = .error e ∧ (execute p).planCalls = 1) ∧
    (∀ plan, p.genPlan 0 = .ok plan → p.planApproved = true →
      p.research 0 = .error e →
      (execute p).result = .error e ∧ (execute p).researchCalls = 1) ∧
    (∀ plan notes, p.genPlan 0 = .ok plan → p.planApproved = true →
      p.research 0 = .ok notes → p.writeReport 0 = .error e →
      (execute p).result = .error e ∧ (execute p).writeCalls = 1) ∧
    (∀ plan notes draft, p.genPlan 0 = .ok plan → p.planApproved = true →
      p.research 0 = .ok notes → p.writeReport 0 = .ok draft →
      i < p.maxIterations →
      (∀ j, j < i → p.reviews j = .ok (fbs j) ∧
        isAcceptedFeedback (fbs j) = false ∧ p.revisions j = .ok (rs j)) →
      p.reviews i = .error e →
      (execute p).result = .error e ∧
        (review_and_revise p.reviews p.revisions p.escalApproved
          p.maxIterations draft "").revisionCalls = i ∧
        (review_and_revise p.reviews p.revisions p.escalApproved
          p.maxIterations draft "").escalationCalls = 0) ∧
    (∀ plan notes draft, p.genPlan 0 = .ok plan → p.planApproved = true →
      p.research 0 = .ok notes → p.writeReport 0 = .ok draft →
      i < p.maxIterations →
      (∀ j, j < i → p.reviews j = .ok (fbs j) ∧
        isAcceptedFeedback (fbs j) = false ∧ p.revisions j = .ok (rs j)) →
      p.reviews i = .ok (fbs i) → isAcceptedFeedback (fbs i) = false →
      p.revisions i = .error e →
      (execute p).result = .error e ∧
        (review_and_revise p.reviews p.revisions p.escalApproved
          p.maxIterations draft "").revisionCalls = i + 1 ∧
        (review_and_revise p.reviews p.revisions p.escalApproved
          p.maxIterations draft "").escalationCalls = 0) ∧
    (∀ plan notes draft revised, p.genPlan 0 = .ok plan →
      p.planApproved = true → p.research 0 = .ok notes →
      p.writeReport 0 = .ok draft →
      (review_and_revise p.reviews p.revisions p.escalApproved
        p.maxIterations draft "").outcome = .ok revised →
      p.factCheck 0 = .error e →
      (execute p).result = .error e ∧ (execute p).factCheckCalls = 1) ∧
    (∀ plan notes draft revised fc, p.genPlan 0 = .ok plan →
      p.planApproved = true → p.research 0 = .ok notes →
      p.writeReport 0 = .ok draft →
      (review_and_revise p.reviews p.revisions p.escalApproved
        p.maxIterations draft "").outcome = .ok revised →
      p.factCheck 0 = .ok fc → p.formatDoc 0 = .error e →
      (execute p).result = .error e ∧ (execute p).formatCalls = 1) ∧
    (∀ plan notes draft revised fc fm, p.genPlan 0 = .ok plan →
      p.planApproved = true → p.research 0 = .ok notes →
      p.writeReport 0 = .ok draft →
      (review_and_revise p.reviews p.revisions p.escalApproved
        p.maxIterations draft "").outcome = .ok revised →
      p.factCheck 0 = .ok fc → p.formatDoc 0 = .ok fm →
      p.genSummary 0 = .error e →
      (execute p).result = .error e ∧ (execute p).summaryCalls = 1) := by
  refine ⟨?_, ?_, ?_, ?_, ?_, ?_, ?_, ?_⟩
  · intro h1
    constructor <;> simp [execute, h1]
  · intro plan h1 hap h2
    constructor <;> simp [execute, h1, hap, h2]
  · intro plan notes h1 hap h2 h3
    constructor <;> simp [execute, h1, hap, h2, h3]
  · intro plan notes draft h1 hap h2 h3 hi hclean herr
    have hloop := review_loop_review_error p.reviews p.revisions fbs rs
      p.escalApproved i e (fun j hj => (hclean j hj).1)
      (fun j hj => (hclean j hj).2.1) (fun j hj => (hclean j hj).2.2) herr
      i p.maxIterations 0 draft "" 0 [] (by omega) hi
    have hout : (review_and_revise p.reviews p.revisions p.escalApproved
        p.maxIterations draft "").outcome = .error e := by
      unfold review_and_revise
      rw [hloop]
    refine ⟨by simp [execute, h1, hap, h2, h3, hout], ?_, ?_⟩
    · unfold review_and_revise
      rw [hloop]
      simp
    · unfold review_and_revise
      rw [hloop]
  · intro plan notes draft h1 hap h2 h3 hi hclean hfbi hnacc herr
    have hloop := review_loop_revision_error p.reviews p.revisions fbs rs
      p.escalApproved i e (fun j hj => (hclean j hj).1)
      (fun j hj => (hclean j hj).2.1) (fun j hj => (hclean j hj).2.2)
      hfbi hnacc herr i p.maxIterations 0 draft "" 0 [] (by omega) hi
    have hout : (review_and_revise p.reviews p.revisions p.escalApproved
        p.maxIterations draft "").outcome = .error e := by
      unfold review_and_revise
      rw [hloop]
    refine ⟨by simp [execute, h1, hap, h2, h3, hout], ?_, ?_⟩
    · unfold review_and_revise
      rw [hloop]
      simp
    · unfold review_and_revise
      rw [hloop]
  · intro plan notes draft revised h1 hap h2 h3 h4 h5
    constructor <;> simp [execute, h1, hap, h2, h3, h4, h5]
  · intro plan notes draft revised fc h1 hap h2 h3 h4 h5 h6
    constructor <;> simp [execute, h1, hap, h2, h3, h4, h5, h6]
  · intro plan notes draft revised fc fm h1 hap h2 h3 h4 h5 h6 h7
    constructor <;> simp [execute, h1, hap, h2, h3, h4, h5, h6, h7]

/-- Witness for C1 at concrete runs, one per pipeline stage: a recoverable
failure in the planning, research, writing, review, revision, fact-check,
formatting, or summarizing generator terminates the run after that stage's
single invocation. -/
theorem stage_failures_propagate_without_retry_witness :
    ((execute retryProbeParams).result = .error ⟨false, "timeout occurred"⟩ ∧
      (execute retryProbeParams).planCalls = 1) ∧
    ((execute failResearchParams).result = .error ⟨false, "timeout occurred"⟩ ∧
      (execute failResearchParams).researchCalls = 1) ∧
    ((execute failWriteParams).result = .error ⟨false, "timeout occurred"⟩ ∧
      (execute failWriteParams).writeCalls = 1) ∧
    ((execute failReviewParams).result = .error ⟨false, "timeout occurred"⟩ ∧
      (review_and_revise failReviewParams.reviews failReviewParams.revisions
        failReviewParams.escalApproved failReviewParams.maxIterations
        "draft" "").revisionCalls = 1 ∧
      (review_and_revise failReviewParams.reviews failReviewParams.revisions
        failReviewParams.escalApproved failReviewParams.maxIterations
        "draft" "").escalationCalls = 0) ∧
    ((execute failRevisionParams).result = .error ⟨false, "timeout occurred"⟩ ∧
      (review_and_revise failRevisionParams.reviews failRevisionParams.revisions
        failRevisionParams.escalApproved failRevisionParams.maxIterations
        "draft" "").revisionCalls = 1 ∧
      (review_and_revise failRevisionParams.reviews failRevisionParams.revisions
        failRevisionParams.escalApproved failRevisionParams.maxIterations
        "draft" "").escalationCalls = 0) ∧
    ((execute failFactCheckParams).result = .error ⟨false, "timeout occurred"⟩ ∧
      (execute failFactCheckParams).factCheckCalls = 1) ∧
    ((execute failFormatParams).result = .error ⟨false, "timeout occurred"⟩ ∧
      (execute failFormatParams).formatCalls = 1) ∧
    ((execute failSummaryParams).result = .error ⟨false, "timeout occurred"⟩ ∧
      (execute failSummaryParams).summaryCalls = 1) := by
  refine ⟨?_, ?_, ?_, ?_, ?_, ?_, ?_, ?_⟩
  · exact (stage_failures_propagate_without_retry retryProbeParams
      ⟨false, "timeout occurred"⟩ (fun _ => "") (fun _ => "") 0).1 rfl
  · exact (stage_failures_propagate_without_retry failResearchParams
      ⟨false, "timeout occurred"⟩ (fun _ => "") (fun _ => "") 0).2.1 "plan"
      rfl rfl rfl
  · exact (stage_failures_propagate_without_retry failWriteParams
      ⟨false, "timeout occurred"⟩ (fun _ => "") (fun _ => "") 0).2.2.1
      "plan" "notes" rfl rfl rfl rfl
  · exact (stage_failures_propagate_without_retry failReviewParams
      ⟨false, "timeout occurred"⟩ (fun _ => "needs more work")
      (fun _ => "revised draft") 1).2.2.2.1 "plan" "notes" "draft"
      rfl rfl rfl rfl (by decide)
      (fun j hj => by interval_cases j; exact ⟨rfl, by decide, rfl⟩) rfl
  · exact (stage_failures_propagate_without_retry failRevisionParams
      ⟨false, "timeout occurred"⟩ (fun _ => "needs more work")
      (fun _ => "") 0).2.2.2.2.1 "plan" "notes" "draft"
      rfl rfl rfl rfl (by decide) (fun j hj => absurd hj (by omega))
      rfl (by decide) rfl
  · exact (stage_failures_propagate_without_retry failFactCheckParams
      ⟨false, "timeout occurred"⟩ (fun _ => "") (fun _ => "")
      0).2.2.2.2.2.1 "plan" "notes" "draft" "draft" rfl rfl rfl rfl rfl rfl
  · exact (stage_failures_propagate_without_retry failFormatParams
      ⟨false, "timeout occurred"⟩ (fun _ => "") (fun _ => "")
      0).2.2.2.2.2.2.1 "plan" "notes" "draft" "draft" "facts ok"
      rfl rfl rfl rfl rfl rfl rfl
  · exact (stage_failures_propagate_without_retry failSummaryParams
      ⟨false, "timeout occurred"⟩ (fun _ => "") (fun _ => "")
      0).2.2.2.2.2.2.2 "plan" "notes" "draft" "draft" "facts ok" "formatted"
      rfl rfl rfl rfl rfl rfl rfl rfl

/-- C9: serializing a workflow state with non-empty artifact fields, errors,
and approval data and deserializing the result reproduces every field
exactly, the order of the `errors` sequence included. -/
theorem state_serialization_round_trip (s : WorkflowState)
    (_h1 : s.errors ≠ []) (_h2 : s.metadata ≠ []) (_h3 : s.plan_approved = true)
    (_h4 : s.research_plan ≠ "") (_h5 : s.draft_report ≠ "") :
    StateDict.from_dict (WorkflowState.to_dict s) = s ∧
    (StateDict.from_dict (WorkflowState.to_dict s)).errors = s.errors :=
  ⟨rfl, rfl⟩

/-- Witness for C9 at a concrete state with two errors, metadata, artifacts,
and an approved plan. -/
theorem state_serialization_round_trip_witness :
    StateDict.from_dict (WorkflowState.to_dict sampleState) = sampleState ∧
    (StateDict.from_dict (WorkflowState.to_dict sampleState)).errors =
      sampleState.errors :=
  state_serialization_round_trip sampleState (by decide) (by decide) rfl
    (by decide) (by decide)

end DeepResearch
